import Mathlib

/-!
Shallow embedding of the TaskFlow repository (Node/Express task-tracking API):
the user/task controllers, the JWT utility and the authentication middleware,
over an abstract document store (the spec treats the persistence engine as an
opaque external collaborator with find/create/update/delete-by-filter
operations, so the store is modelled as plain lists of documents).

The source is a tutorial scaffold and contains several slips (misspelled
header key, a nonexistent string method, swapped handler parameters, missing
`return` after sending an error response, wrong status codes).  The embedding
reproduces these faithfully; each definition's comment points at the source
lines it translates and explains how the JavaScript-level behaviour (thrown
TypeError, Express ERR_HTTP_HEADERS_SENT, swallowed exceptions) is rendered.
-/

/-- Request body as parsed by `express.json()`: the fields the controllers
destructure.  Absent fields are `none` (JavaScript `undefined`).  The `user`
field models a client-supplied owner id in the body (never read by
`createTask`, which is what claim C7 is about, but passed wholesale to
`findByIdAndUpdate` by `updateTask`). -/
structure ReqBody where
  name : Option String := none
  email : Option String := none
  password : Option String := none
  title : Option String := none
  description : Option String := none
  status : Option String := none
  priority : Option String := none
  duedate : Option String := none
  user : Option Nat := none
deriving DecidableEq

/-- JavaScript truthiness test used by the controllers' `if (!x)` guards on
string-valued body fields: `undefined` and the empty string are falsy, every
other string is truthy. -/
def falsy (v : Option String) : Bool :=
  match v with
  | none => true
  | some s => s == ""

/-- Process environment, `process.env`: a map from variable names to values.
Lookups are case-sensitive, which matters because `utils/generateToken.js`
signs with `process.env.JWT_SECRET` while `middleware/authMiddleware.js`
verifies with `process.env.JWT_secret`. -/
abbrev EnvMap := List (String × String)

/-- Lookup of one environment variable (JavaScript property access on
`process.env`; `none` models `undefined`). -/
def envGet (env : EnvMap) (k : String) : Option String :=
  List.lookup k env

/-- Model of a signed JWT produced by `jwt.sign(payload, secret, opts)` in
utils/generateToken.js: the claims payload (claim name to rendered value),
the secret the signature was computed with, and the issued-at/expiry instants
(seconds).  The token is kept in parsed form; `tokenStr` below renders the
wire string. -/
structure Token where
  payload : List (String × String)
  secret : String
  iat : Nat
  exp : Nat
deriving DecidableEq

/-- Rendering of a token to the string that travels in the HTTP header.  The
authentication gate never parses it (it crashes first, see `protect`), so the
rendering is only needed to build concrete requests. -/
def tokenStr (t : Token) : String :=
  "jwt." ++ String.intercalate ";" (t.payload.map (fun p => p.1 ++ "=" ++ p.2)) ++ "." ++ t.secret

/-- Embeds `jwt.sign(payload, secret, expiresIn 30d)`: with an `undefined`
secret the library throws (modelled as `Except.error`), otherwise it returns
a token whose expiry is issue time plus thirty days. -/
def jwtSign (payload : List (String × String)) (secret : Option String) (now : Nat) : Except Unit Token :=
  match secret with
  | none => Except.error ()
  | some s => Except.ok ⟨payload, s, now, now + 30 * 24 * 60 * 60⟩

/-- Embeds `generateToken` from utils/generateToken.js: signs the payload
`\x7b userId \x7d` (claim name `userId`, value the account id) with
`process.env.JWT_SECRET` and a 30-day expiry. -/
def generateToken (userId : Nat) (env : EnvMap) (now : Nat) : Except Unit Token :=
  jwtSign [("userId", toString userId)] (envGet env "JWT_SECRET") now

/-- User document as stored by `User.create` in the account store
(models/userModel.js paths `name`, `email`, `password`; `id` stands for the
Mongo `_id`). -/
structure UserDoc where
  id : Nat
  name : String
  email : String
  password : String
  createdAt : Nat
deriving DecidableEq

/-- Task document as stored by `Task.create` (models/taskModel.js; `id`
stands for the Mongo `_id`, `user` is the owner reference, `createdAt` comes
from the schema's timestamps option).  The content fields are optional
because the controller inserts whatever subset of fields the body carried. -/
structure TaskDoc where
  id : Nat
  title : Option String := none
  description : Option String := none
  status : Option String := none
  priority : Option String := none
  duedate : Option String := none
  user : Nat
  createdAt : Nat
deriving DecidableEq

/-- The opaque document store of the spec: the two collections plus a fresh-id
counter standing for Mongo object-id generation. -/
structure DB where
  users : List UserDoc := []
  tasks : List TaskDoc := []
  nextId : Nat := 0
deriving DecidableEq

/-- Atomic JSON values appearing in response bodies. -/
inductive JAtom
  | str (s : String)
  | num (n : Nat)
  | jwt (t : Token)
deriving DecidableEq

/-- One field value of a response body: an atom, a serialized task document
(`\x7bmessage, task\x7d` responses), or a serialized task array (`getTasks`). -/
inductive JField
  | atom (a : JAtom)
  | taskDoc (t : TaskDoc)
  | taskArr (ts : List TaskDoc)
deriving DecidableEq

/-- A JSON response body: an object, as a key/value list. -/
abbrev JBody := List (String × JField)

/-- An HTTP response as produced by `res.status(s).json(body)`. -/
structure Response where
  status : Nat
  body : JBody
deriving DecidableEq

/-- Shorthand for the ubiquitous `res.status(s).json(\x7bmessage\x7d)`. -/
def jsonMsg (s : Nat) (m : String) : Response :=
  ⟨s, [("message", JField.atom (JAtom.str m))]⟩

/-- Top-level key list of a response body. -/
def bodyKeys (b : JBody) : List String :=
  b.map Prod.fst

/-- Checks that no top-level key of a response body is `password` (the stored
hash's field name in the user schema). -/
def noPasswordKey (b : JBody) : Bool :=
  b.all (fun p => p.1 != "password")

/-- An inbound HTTP request: headers as lowercased name/value pairs (Node
lowercases incoming header names) and the parsed JSON body. -/
structure Request where
  headers : List (String × String) := []
  body : ReqBody := {}
deriving DecidableEq

/-- Header lookup, `req.headers.<name>`; `none` models `undefined`. -/
def headerGet (req : Request) (k : String) : Option String :=
  List.lookup k req.headers

/-- Model of a bcrypt hash with work factor 12 (`bcrypt.hash(password, 12)`):
an injective tagging of the plaintext, adequate because no claim depends on
the hash's internals, only on what equals or contains it. -/
def bhash (plain : String) : String :=
  "b2b.12." ++ plain

/-- Model of `bcrypt.compare(plain, hashed)`. -/
def bcompare (plain hashed : String) : Bool :=
  hashed == bhash plain

/-- Outcome of the `protect` middleware for one request: a response was sent
(request ends there), `next()` was called with an identity attached to
`req.user` (given as the document's field/value pairs after
`select("-password")`), or neither happened and the request hangs. -/
inductive GateResult
  | reply (r : Response)
  | proceed (ident : List (String × String))
  | hang
deriving DecidableEq

/-- Embeds `protect` from middleware/authMiddleware.js.  The source reads
`req.headers.autorization` (header name misspelled, so a standard
`Authorization: Bearer ...` header is never seen and falls to the 401
branch).  When a header literally named `autorization` is present, the guard
evaluates `req.headers.autorization.startswith("Bearer")`: JavaScript strings
expose `startsWith` but no `startswith`, so the property access yields
`undefined` and the call throws TypeError before `jwt.verify` or the user
lookup run (the lookup would itself fail: it calls `user.findById` on the
unbound identifier `user` - the import is `User` -, verifies with env
`JWT_secret` while the issuer signs with `JWT_SECRET`, and reads
`decoded.id` while the issuer stores the claim under `userId`).  The catch
block only runs `console.log`, sending no response and never calling
`next()`, so the request hangs. -/
def protect (req : Request) : GateResult :=
  match headerGet req "autorization" with
  | some _h => GateResult.hang
  | none => GateResult.reply (jsonMsg 401 "NOt autho,no token")

/-- The identity the gate attached to `req.user`, when it attached one. -/
def gateAttachedIdent (req : Request) : Option (List (String × String)) :=
  match protect req with
  | GateResult.proceed i => some i
  | _ => none

/-- Checks that an attached identity carries no `password` field. -/
def identNoPassword (i : List (String × String)) : Bool :=
  i.all (fun p => p.1 != "password")

/-- Store query `Task.findById(id)`. -/
def taskFindById (db : DB) (tid : Nat) : Option TaskDoc :=
  db.tasks.find? (fun t => t.id == tid)

/-- Store operation `Task.findByIdAndDelete(id)`: removes the matching
document. -/
def taskDeleteById (db : DB) (tid : Nat) : DB :=
  { db with tasks := db.tasks.filter (fun t => t.id != tid) }

/-- Field override used by `findByIdAndUpdate`: a field present in the update
body replaces the stored one, an absent field leaves it unchanged (Mongo
treats the plain body as a set of the given paths). -/
def override (new old : Option String) : Option String :=
  match new with
  | some v => some v
  | none => old

/-- Application of an update body to a stored task document, the effect of
`Task.findByIdAndUpdate(id, req.body, ...)` on the matched document.  The
body is passed wholesale by `updateTask`, so a `user` field in it overwrites
the owner reference too. -/
def applyBody (b : ReqBody) (t : TaskDoc) : TaskDoc :=
  { t with
    title := override b.title t.title
    description := override b.description t.description
    status := override b.status t.status
    priority := override b.priority t.priority
    duedate := override b.duedate t.duedate
    user := (b.user.map id).getD t.user }

/-- Store operation `Task.findByIdAndUpdate(id, body, new runValidators)`:
updates the matching document in place. -/
def taskUpdateById (db : DB) (tid : Nat) (b : ReqBody) : DB :=
  { db with tasks := db.tasks.map (fun t => if t.id == tid then applyBody b t else t) }

/-- Embeds `registerUser` from controllers/userController.js: validate the
three fields (JavaScript falsiness), reject an already-used email with 400,
hash the password with work factor 12, create the user, then issue a token
and answer 201 with exactly the fields `_id`, `name`, `email`, `token`.
`jwt.sign` throws when `JWT_SECRET` is unset; that lands in the catch block,
which answers 500 (the user document was already created at that point).
The `else` 401 "User creation failed" branch is unreachable: `User.create`
either returns a document (truthy) or throws. -/
def registerUser (req : Request) (env : EnvMap) (now : Nat) (db : DB) : Response × DB :=
  let name := req.body.name
  let email := req.body.email
  let password := req.body.password
  if falsy name || falsy email || falsy password then
    (jsonMsg 400 "All fields are required", db)
  else
    match db.users.find? (fun u => u.email == email.getD "") with
    | some _ => (jsonMsg 400 "User already exists", db)
    | none =>
      let hashed := bhash (password.getD "")
      let u : UserDoc := ⟨db.nextId, name.getD "", email.getD "", hashed, now⟩
      let db1 : DB := { db with users := db.users ++ [u], nextId := db.nextId + 1 }
      match generateToken u.id env now with
      | Except.ok t =>
        (⟨201, [("_id", JField.atom (JAtom.num u.id)),
                ("name", JField.atom (JAtom.str u.name)),
                ("email", JField.atom (JAtom.str u.email)),
                ("token", JField.atom (JAtom.jwt t))]⟩, db1)
      | Except.error _ => (jsonMsg 500 "Internal server error", db1)

/-- The Express response handle as seen from inside a handler.  It exposes
`status`/`json` methods but carries no `body` property, which is what the
swapped-parameter `loginUser` ends up reading. -/
abbrev ResponseObj := Unit

/-- Property access `<response>.body` on an Express response object: the
property does not exist, so the access yields `undefined`. -/
def ResponseObj.body (_r : ResponseObj) : Option ReqBody :=
  none

/-- Outcome of a handler that may fail to produce any response: either a
response was written, or an exception escaped the handler and nothing was
ever sent on the socket. -/
inductive HandlerResult
  | reply (r : Response)
  | crash
deriving DecidableEq

/-- Embeds `loginUser` from controllers/userController.js.  The source
declares the handler as `async (res, req) => ...` although Express invokes
route handlers as `(request, response)`; the parameter names below mirror
the source, so inside the body `res` is bound to the incoming request and
`req` to the response handle.  `req.body` therefore reads the nonexistent
`body` property of the response object and the destructuring
`const \x7bemail, password\x7d = req.body` throws TypeError at once; the
catch block then evaluates `res.status(500)`, but `res` is bound to the
request object, which has no `status` method, so a second TypeError escapes
the handler and no response is ever written.  (Were the response handle ever
to carry a body - second match arm, unreachable - every exit path of the
remaining source still calls a `res.*` method on the request object and
would throw the same way, before or after the intended 401
"Invalid credentials" branches.) -/
def loginUser (res : Request) (req : ResponseObj) (db : DB) : HandlerResult :=
  match ResponseObj.body req with
  | none => HandlerResult.crash
  | some _b => HandlerResult.crash

/-- Descending creation-time order used by `getTasks`'s
`.sort(createdAt minus-one)`: a task comes before another when it was created
no earlier. -/
def newestFirst (a b : TaskDoc) : Prop :=
  b.createdAt ≤ a.createdAt

instance : DecidableRel newestFirst :=
  fun a b => Nat.decLe b.createdAt a.createdAt

instance : IsTotal TaskDoc newestFirst :=
  ⟨fun a b => Nat.le_total b.createdAt a.createdAt⟩

instance : IsTrans TaskDoc newestFirst :=
  ⟨fun _a _b _c hab hbc => Nat.le_trans hbc hab⟩

/-- The task list computed by `getTasks`'s store query
`Task.find(user eq req.user._id).sort(createdAt descending)`: the query
itself is filtered to the authenticated user's id, then sorted newest first
(the store's sort is modelled as insertion sort by `newestFirst`). -/
def getTasksList (uid : Nat) (db : DB) : List TaskDoc :=
  List.insertionSort newestFirst (db.tasks.filter (fun t => t.user == uid))

/-- Embeds `getTasks` from controllers/taskController.js: one owner-scoped
query, then 200 with the task array.  `.populate("user","name email")` joins
the owner's name/email into each element; the join is not modelled (it never
touches the password field and no claim mentions it).  There is no ownership
comparison and no 403 branch; the only other exit is the catch-all 500,
which the pure store never triggers. -/
def getTasks (uid : Nat) (db : DB) : Response × DB :=
  (⟨200, [("tasks", JField.taskArr (getTasksList uid db))]⟩, db)

/-- Embeds `createTask` from controllers/taskController.js: destructure
`title, description, status, priority, duedate` from the body (any
client-supplied `user` field is not read), send 400 when the title is falsy
- without `return`, so execution continues - and call `Task.create` with
those fields plus `user: req.user._id`.  The create is not awaited, so the
201 is sent with the pending promise serializing to an empty object; on the
falsy-title branch the 201 (and then the catch block's 400) throws
ERR_HTTP_HEADERS_SENT, leaving the 400 as the one response, while the store
insert still happens on both branches. -/
def createTask (uid : Nat) (now : Nat) (body : ReqBody) (db : DB) : Response × DB :=
  let doc : TaskDoc :=
    { id := db.nextId
      title := body.title
      description := body.description
      status := body.status
      priority := body.priority
      duedate := body.duedate
      user := uid
      createdAt := now }
  let db1 : DB := { db with tasks := db.tasks ++ [doc], nextId := db.nextId + 1 }
  (if falsy body.title then jsonMsg 400 "tittle is required" else ⟨201, []⟩, db1)

/-- Embeds `getTaskById` from controllers/taskController.js: resolve the task
(`return` 400 "task not found" when absent - the source's own comments and
status table call for 404 here); on an owner mismatch send 403 without
`return`, after which the 200 send below throws ERR_HTTP_HEADERS_SENT and
the catch block's 401 send throws the same way, so the 403 stands; on an
owner match answer 200 with the task. -/
def getTaskById (uid : Nat) (tid : Nat) (db : DB) : Response × DB :=
  match taskFindById db tid with
  | none => (jsonMsg 400 "task not found", db)
  | some task =>
    if task.user != uid then
      (jsonMsg 403 "Not authorized to view this task", db)
    else
      (⟨200, [("message", JField.atom (JAtom.str "task is authorized")),
              ("task", JField.taskDoc task)]⟩, db)

/-- Embeds `updateTask` from controllers/taskController.js: resolve the task
(`return` 400 "task not found" when absent); on an owner mismatch send 403
WITHOUT `return`, after which execution falls through to
`Task.findByIdAndUpdate(id, req.body, ...)` - the store is mutated on behalf
of the non-owner - and then the 200 send (and the catch block's 500 send)
throws ERR_HTTP_HEADERS_SENT, so the 403 remains the one response over the
updated store; on an owner match the update is applied and 200 returns the
updated document. -/
def updateTask (uid : Nat) (tid : Nat) (body : ReqBody) (db : DB) : Response × DB :=
  match taskFindById db tid with
  | none => (jsonMsg 400 "task not found", db)
  | some task =>
    if task.user != uid then
      (jsonMsg 403 "Not authorized to view this task", taskUpdateById db tid body)
    else
      (⟨200, [("message", JField.atom (JAtom.str "updataed task")),
              ("task", JField.taskDoc (applyBody body task))]⟩,
       taskUpdateById db tid body)

/-- Embeds `deleteTask` from controllers/taskController.js: resolve the task
(`return` 400 "task not found" when absent - the source's comments call for
404); on an owner mismatch send 403 WITHOUT `return`, after which execution
falls through to `Task.findByIdAndDelete(req.params.id)` - the record is
deleted on behalf of the non-owner - and the 200 send (and the catch
block's 500 send) throws ERR_HTTP_HEADERS_SENT, so the 403 remains the one
response over the store with the task removed; on an owner match the task
is deleted and 200 confirms. -/
def deleteTask (uid : Nat) (tid : Nat) (db : DB) : Response × DB :=
  match taskFindById db tid with
  | none => (jsonMsg 400 "task not found", db)
  | some task =>
    if task.user != uid then
      (jsonMsg 403 "Not authorized to view this task", taskDeleteById db tid)
    else
      (⟨200, [("message", JField.atom (JAtom.str "task deleted successfully")),
              ("task", JField.taskDoc task)]⟩,
       taskDeleteById db tid)

/-- Concrete environment with the signing secret configured (the `.env` of
the README). -/
def demoEnv : EnvMap := [("JWT_SECRET", "s3cret")]

/-- The Express response handle passed to a handler. -/
def resHandle : ResponseObj := Unit.unit

/-- Registration request for the spec's example account Ann. -/
def annReq : Request :=
  { body := { name := some "Ann", email := some "ann@x.com", password := some "longpass1" } }

/-- Store state after registering Ann at instant 1000 into the empty store. -/
def dbAnn : DB := (registerUser annReq demoEnv 1000 {}).2

/-- The token `generateToken 0 demoEnv 1000` issues for Ann's account id 0:
payload claim `userId = 0`, signed with `JWT_SECRET`, expiring thirty days
after issue. -/
def annToken : Token :=
  ⟨[("userId", "0")], "s3cret", 1000, 1000 + 30 * 24 * 60 * 60⟩

/-- Login request with a non-existent email. -/
def ghostLoginReq : Request :=
  { body := { email := some "ghost@x.com", password := some "whatever" } }

/-- Login request with Ann's email but a wrong password. -/
def wrongPwLoginReq : Request :=
  { body := { email := some "ann@x.com", password := some "wrongpass" } }

/-- Login request with Ann's registered credentials. -/
def annLoginReq : Request :=
  { body := { email := some "ann@x.com", password := some "longpass1" } }

/-- A task owned by user 1. -/
def taskA : TaskDoc :=
  { id := 1, title := some "buy milk", user := 1, createdAt := 5 }

/-- Store holding exactly `taskA`. -/
def dbTask : DB := { tasks := [taskA], nextId := 2 }

/-- The document `createTask 5 7 (title buy milk) dbTask` inserts. -/
def taskNew : TaskDoc :=
  { id := 2, title := some "buy milk", user := 5, createdAt := 7 }

/-- C1: the claim says that on get-by-id/update/delete an ownership mismatch
answers 403 and the request terminates there, with no subsequent read or
write of the record on behalf of the non-owner.  The code sends the 403
but, lacking a `return`, falls through to the store operation: at this
concrete input (task 1 owned by user 1, requester user 2) the non-owner's
delete removes the task from the store and the non-owner's update rewrites
its title, refuting the no-subsequent-write part of the claim. -/
theorem nonowner_mutation_concrete :
    (deleteTask 2 1 dbTask).1 = jsonMsg 403 "Not authorized to view this task" ∧
    (deleteTask 2 1 dbTask).2.tasks = [] ∧
    (updateTask 2 1 { title := some "hacked" } dbTask).1.status = 403 ∧
    (updateTask 2 1 { title := some "hacked" } dbTask).2.tasks
      = [{ taskA with title := some "hacked" }] := by
  decide

/-- C2: the claim says every failure branch of the authentication gate ends
in HTTP 401, an expired token included, and never in silently producing no
response.  When a request carries the header the gate literally reads
(`autorization`), any token - here one whose expiry instant 10 is long
past - lands in the catch block, which only logs: no response, no
`next()`, refuting the claim.  The header-absent branch (also reached by
the standard `authorization` spelling, which the gate never reads) does
answer 401. -/
theorem gate_silent_drop_concrete :
    protect { headers := [("autorization", "Bearer " ++ tokenStr ⟨[("userId", "0")], "s3cret", 0, 10⟩)] }
      = GateResult.hang ∧
    protect { headers := [] } = GateResult.reply (jsonMsg 401 "NOt autho,no token") ∧
    protect { headers := [("authorization", "Bearer notavalidtoken")] }
      = GateResult.reply (jsonMsg 401 "NOt autho,no token") := by
  decide

/-- C3: the claim says a login with a non-existent email and a login with an
existing email but wrong password produce responses with identical status
and message.  In the code neither case produces a response at all: the
handler's parameters are declared in the order `(res, req)`, so the body
dereferences the response object's nonexistent `body` property and throws;
the store state (Ann registered, the ghost email absent, the candidate
password mismatching the stored hash) is exhibited alongside to show both
scenarios are genuine. -/
theorem login_crash_concrete :
    (dbAnn.users.find? (fun u => u.email == "ann@x.com")).isSome = true ∧
    dbAnn.users.find? (fun u => u.email == "ghost@x.com") = none ∧
    bcompare "wrongpass" (bhash "longpass1") = false ∧
    loginUser ghostLoginReq resHandle dbAnn = HandlerResult.crash ∧
    loginUser wrongPwLoginReq resHandle dbAnn = HandlerResult.crash := by
  decide

/-- C4: the claim says a token issued by register/login and presented
immediately to the authentication gate resolves to the issuing account id
and loads that account.  The issuer does produce the expected token for
Ann's id 0, but the gate never resolves it: presented under the header name
the gate actually reads it crashes on the nonexistent string method and the
request hangs; presented under the standard `authorization` spelling the
gate never sees it and answers 401. -/
theorem token_roundtrip_concrete :
    generateToken 0 demoEnv 1000 = Except.ok annToken ∧
    protect { headers := [("autorization", "Bearer " ++ tokenStr annToken)] } = GateResult.hang ∧
    protect { headers := [("authorization", "Bearer " ++ tokenStr annToken)] }
      = GateResult.reply (jsonMsg 401 "NOt autho,no token") :=
  ⟨rfl, by decide, by decide⟩

/-- C5: the claim says get-by-id/update/delete answer 404 when the id
resolves to no record, so a second delete of the same task yields 404.  In
the code the not-found branch answers 400 "task not found": the first
delete succeeds with 200, the second lands on the 400 - not the claimed
404 (and not 500, and not silent success) - as does a get of a missing id. -/
theorem delete_twice_concrete :
    (deleteTask 1 1 dbTask).1.status = 200 ∧
    (deleteTask 1 1 (deleteTask 1 1 dbTask).2).1 = jsonMsg 400 "task not found" ∧
    (getTaskById 1 99 dbTask).1 = jsonMsg 400 "task not found" := by
  decide

/-- C6: the list operation filters the store query itself to the
authenticated user's id and has no 403 path: `getTasks` always answers 200,
its list holds exactly the stored tasks owned by the requester, and hence a
task owned by a different account never appears in it. -/
theorem getTasks_owner_scoped (uid : Nat) (db : DB) :
    (getTasks uid db).1.status = 200 ∧
    (∀ t, t ∈ getTasksList uid db ↔ t ∈ db.tasks ∧ t.user = uid) ∧
    (∀ t a, t.user = a → a ≠ uid → t ∉ getTasksList uid db) := by
  have hmem : ∀ t, t ∈ getTasksList uid db ↔ t ∈ db.tasks ∧ t.user = uid := by
    intro t
    unfold getTasksList
    rw [List.mem_insertionSort, List.mem_filter]
    simp
  refine ⟨rfl, hmem, ?_⟩
  intro t a hta hne hm
  exact hne (hta ▸ ((hmem t).mp hm).2)

/-- Application of the C6 theorem at a concrete input: user 1's task does
not appear in user 2's list over the store holding it. -/
theorem getTasks_owner_scoped_application : taskA ∉ getTasksList 2 dbTask :=
  (getTasks_owner_scoped 2 dbTask).2.2 taskA 1 rfl (by decide)

/-- C7: every task creation assigns the authenticated identity as owner:
any task in the store after `createTask` was already there or carries the
requester's id, and the handler's result does not depend on a
client-supplied `user` value in the body. -/
theorem createTask_owner_assignment (uid now : Nat) (body : ReqBody) (db : DB) :
    (∀ t, t ∈ (createTask uid now body db).2.tasks → t ∈ db.tasks ∨ t.user = uid) ∧
    (∀ v, createTask uid now { body with user := v } db = createTask uid now body db) := by
  constructor
  · intro t ht
    have ht2 : t ∈ db.tasks ++
        [{ id := db.nextId, title := body.title, description := body.description,
           status := body.status, priority := body.priority, duedate := body.duedate,
           user := uid, createdAt := now }] := ht
    rcases List.mem_append.mp ht2 with h | h
    · exact Or.inl h
    · right
      rw [List.mem_singleton.mp h]
  · intro v
    rcases body with ⟨n, e, p, ti, de, st, pr, dd, u⟩
    rfl

/-- Application of the C7 theorem at a concrete input: the document inserted
by a creation on behalf of user 5 is owned by user 5. -/
theorem createTask_owner_assignment_application :
    taskNew ∈ dbTask.tasks ∨ taskNew.user = 5 :=
  (createTask_owner_assignment 5 7 { title := some "buy milk" } dbTask).1 taskNew (by decide)

/-- C8: the stored password hash is never serialized: every response body of
`registerUser` is free of a `password` key, its 201 body carries exactly the
keys `_id`, `name`, `email`, `token`, and every identity the authentication
gate attaches to the request context passes the no-password check (the gate
in fact never reaches its attach step, so the last part holds over an empty
set of attachments; the dead attach code does run `select("-password")`). -/
theorem no_password_serialized (req : Request) (env : EnvMap) (now : Nat) (db : DB) (r : Request) :
    noPasswordKey (registerUser req env now db).1.body = true ∧
    ((registerUser req env now db).1.status = 201 →
      bodyKeys (registerUser req env now db).1.body = ["_id", "name", "email", "token"]) ∧
    Option.all identNoPassword (gateAttachedIdent r) = true := by
  have hg : Option.all identNoPassword (gateAttachedIdent r) = true := by
    unfold gateAttachedIdent protect
    cases headerGet r "autorization" <;> rfl
  refine ⟨?_, ?_, hg⟩
  · simp only [registerUser]
    split
    · rfl
    · split
      · rfl
      · split
        · rfl
        · rfl
  · simp only [registerUser]
    split
    · intro h
      simp [jsonMsg] at h
    · split
      · intro h
        simp [jsonMsg] at h
      · split
        · intro _h
          rfl
        · intro h
          simp [jsonMsg] at h

/-- Application of the C8 theorem at a concrete input: Ann's successful
registration response carries exactly the four public keys. -/
theorem no_password_serialized_application :
    bodyKeys (registerUser annReq demoEnv 1000 {}).1.body = ["_id", "name", "email", "token"] :=
  (no_password_serialized annReq demoEnv 1000 {} annReq).2.1 (by decide)

/-- C9: the claim says register followed by login with the same credentials
succeeds with the same account id.  Registration does succeed (201, account
id 0), but the subsequent login with the very same credentials produces no
response at all - the handler crashes on its swapped `(res, req)`
parameters - refuting the login half of the claim. -/
theorem register_login_concrete :
    (registerUser annReq demoEnv 1000 {}).1.status = 201 ∧
    List.lookup "_id" (registerUser annReq demoEnv 1000 {}).1.body
      = some (JField.atom (JAtom.num 0)) ∧
    loginUser annLoginReq resHandle dbAnn = HandlerResult.crash := by
  decide

/-- C10: the list returned by `getTasks` is sorted by creation time
descending (newest first): its body is the owner-scoped list and that list
is sorted under `newestFirst`. -/
theorem getTasks_sorted_newest_first (uid : Nat) (db : DB) :
    (getTasks uid db).1.body = [("tasks", JField.taskArr (getTasksList uid db))] ∧
    List.Sorted newestFirst (getTasksList uid db) := by
  refine ⟨rfl, ?_⟩
  unfold getTasksList
  exact List.sorted_insertionSort newestFirst _
